import Mathlib

/-!
Verification development for the Emotion-Timeline Reconciliation and Outcome
Classification Engine (`api/extractor.py`).

The Python functions under scrutiny are shallowly embedded as executable Lean
definitions over `ℚ` (for the floating-point seconds and scores), `Option`
types (for dictionary keys that may be absent or `None`), and `String`.
Python truthiness of optional strings (`None` and `""` are falsy) is modelled
by `pyTruthy`/`pyOr`, Python `round(x, k)` (round-half-to-even) by `roundTo`,
`str.lower`/`str.strip`/`str.title` by `lowerStr`/`pyStrip`/`pyTitle`, and
substring membership (`needle in haystack`) by `containsSub`.
-/

namespace EmotionExtractor

attribute [local semireducible] Rat.mul Rat.inv Rat.add Rat.sub

/-! ## String primitives (Python `str.lower`, `str.strip`, `str.title`, `in`) -/

/-- Lower-case a single character, as Python `str.lower` does on the basic
latin range used by emotion labels and speaker roles. -/
def lowerChar (c : Char) : Char :=
  if 65 ≤ c.toNat ∧ c.toNat ≤ 90 then Char.ofNat (c.toNat + 32) else c

/-- Upper-case a single character (basic latin range). -/
def upperChar (c : Char) : Char :=
  if 97 ≤ c.toNat ∧ c.toNat ≤ 122 then Char.ofNat (c.toNat - 32) else c

/-- Python `s.lower()`. -/
def lowerStr (s : String) : String := ⟨s.data.map lowerChar⟩

/-- Characters removed by Python `str.strip()` with no argument. -/
def isPySpace (c : Char) : Bool :=
  c == ' ' || c == '\t' || c == '\n' || c == '\r' || c == '\x0b' || c == '\x0c'

/-- Python `s.strip()`: drop leading and trailing whitespace. -/
def pyStrip (s : String) : String :=
  ⟨((s.data.dropWhile isPySpace).reverse.dropWhile isPySpace).reverse⟩

/-- Helper for `pyTitle`: the boolean records whether the previous character
was alphabetic (cased). -/
def titleMap (prevCased : Bool) : List Char → List Char
  | [] => []
  | c :: cs =>
    (if c.isAlpha then (if prevCased then lowerChar c else upperChar c) else c)
      :: titleMap c.isAlpha cs

/-- Python `s.title()` restricted to the basic latin range. -/
def pyTitle (s : String) : String := ⟨titleMap false s.data⟩

/-- Python truthiness filter on an optional string: `None` and `""` are falsy. -/
def pyTruthy (o : Option String) : Option String :=
  match o with
  | some "" => none
  | x => x

/-- Python `a or b` on two optional strings (`None` and `""` are falsy).
The result is `b` when `a` is falsy, so it may itself be `none` or `some ""`. -/
def pyOr (a b : Option String) : Option String :=
  match a with
  | none => b
  | some s => if s = "" then b else some s

/-- Helper for `containsSub`: does `pat` occur as a contiguous run in the list? -/
def containsAux (pat : List Char) : List Char → Bool
  | [] => pat.isEmpty
  | c :: rest => (pat.isPrefixOf (c :: rest) : Bool) || containsAux pat rest

/-- Python substring membership `pat in hay`. -/
def containsSub (hay pat : String) : Bool := containsAux pat.data hay.data

/-! ## Rounding (Python `round(x, k)`, round-half-to-even) -/

/-- Round a rational to the nearest integer, ties to even (Python `round`). -/
def roundHalfEven (q : ℚ) : ℤ :=
  let f := ⌊q⌋
  let r := q - (f : ℚ)
  if r < 1/2 then f else if 1/2 < r then f + 1 else if f % 2 = 0 then f else f + 1

/-- Powers of ten as rationals, written recursively so the kernel can
evaluate them. -/
def tenPow : ℕ → ℚ
  | 0 => 1
  | n + 1 => 10 * tenPow n

/-- Python `round(q, k)` for a non-negative number of decimal places `k`. -/
def roundTo (k : ℕ) (q : ℚ) : ℚ :=
  (roundHalfEven (q * tenPow k) : ℚ) / tenPow k

/-- Python `round(q, 2)`, the tolerance used throughout the engine. -/
def round2 (q : ℚ) : ℚ := roundTo 2 q

/-! ## Emotion Categorizer (`categorize_emotion`) -/

/-- Modelled from the spec: the static lookup table `EMOTION_CATEGORIES`
lives in the module `emotion_categories`, which is not among the provided
sources; per the spec it maps lower-case raw emotion label names to one of
"positive", "neutral" or "negative". The claims settled here depend only on
the table being an association list consulted with a lower-cased key, not on
its exact entries; a representative subset of entries is used. -/
def EMOTION_CATEGORIES : List (String × String) :=
  [("joy", "positive"), ("amusement", "positive"), ("excitement", "positive"),
   ("satisfaction", "positive"), ("admiration", "positive"), ("interest", "positive"),
   ("calmness", "neutral"), ("contemplation", "neutral"), ("concentration", "neutral"),
   ("boredom", "neutral"), ("tiredness", "neutral"),
   ("anger", "negative"), ("sadness", "negative"), ("distress", "negative"),
   ("anxiety", "negative"), ("disappointment", "negative"), ("confusion", "negative")]

/-- Modelled from the spec: unknown or null names map to a configured default
category, which is neutral. -/
def DEFAULT_EMOTION_CATEGORY : String := "neutral"

/-- Embedding of `categorize_emotion` (`api/extractor.py`, lines 169-172):
a falsy name yields the default category, otherwise the lower-cased name is
looked up in `EMOTION_CATEGORIES` with the default as fallback. -/
def categorize_emotion (emotion_name : Option String) : String :=
  match emotion_name with
  | none => DEFAULT_EMOTION_CATEGORY
  | some s =>
    if s = "" then DEFAULT_EMOTION_CATEGORY
    else (EMOTION_CATEGORIES.lookup (lowerStr s)).getD DEFAULT_EMOTION_CATEGORY

/-! ### Facts about the string primitives -/

theorem toNat_ofNat_valid (n : ℕ) (h : n.isValidChar) : (Char.ofNat n).toNat = n := by
  rw [Char.ofNat, dif_pos h]
  rfl

theorem lowerChar_not_upper (c : Char) :
    ¬ (65 ≤ (lowerChar c).toNat ∧ (lowerChar c).toNat ≤ 90) := by
  unfold lowerChar
  split_ifs with h
  · have hv : (c.toNat + 32).isValidChar := Or.inl (by omega)
    rw [toNat_ofNat_valid _ hv]
    omega
  · exact h

theorem lowerChar_idem (c : Char) : lowerChar (lowerChar c) = lowerChar c := by
  conv_lhs => rw [lowerChar]
  rw [if_neg (lowerChar_not_upper c)]

theorem lowerStr_idem (s : String) : lowerStr (lowerStr s) = lowerStr s := by
  unfold lowerStr
  simp only [List.map_map]
  congr 1
  exact List.map_congr_left fun c _ => lowerChar_idem c

theorem lowerStr_eq_empty {x : String} : lowerStr x = "" ↔ x = "" := by
  constructor
  · intro h
    rw [String.ext_iff] at h ⊢
    exact List.map_eq_nil_iff.mp h
  · intro h
    subst h
    rfl

/-- C8: emotion categorization is total and case-insensitive: categorizing a
label and categorizing its lower-cased form agree, `None` and `""` and any
label whose lower-cased form is not in the table all map to the configured
default category, which is "neutral"; totality holds by construction. -/
theorem c8_categorize_total :
    (∀ x : String, categorize_emotion (some x) = categorize_emotion (some (lowerStr x)))
    ∧ categorize_emotion none = DEFAULT_EMOTION_CATEGORY
    ∧ categorize_emotion (some "") = DEFAULT_EMOTION_CATEGORY
    ∧ (∀ x : String, EMOTION_CATEGORIES.lookup (lowerStr x) = none →
        categorize_emotion (some x) = DEFAULT_EMOTION_CATEGORY)
    ∧ DEFAULT_EMOTION_CATEGORY = "neutral" := by
  refine ⟨fun x => ?_, rfl, rfl, fun x h => ?_, rfl⟩
  · by_cases hx : x = ""
    · subst hx
      rfl
    · simp only [categorize_emotion]
      rw [if_neg hx, if_neg (fun h => hx (lowerStr_eq_empty.mp h)), lowerStr_idem]
  · by_cases hx : x = ""
    · subst hx
      rfl
    · simp only [categorize_emotion]
      rw [if_neg hx, h]
      rfl

/-- Witness for C8 at concrete labels: a cased known label agrees with its
lower-cased form, and an unknown label maps to the default category. -/
theorem c8_categorize_total_witness :
    categorize_emotion (some "JoY") = categorize_emotion (some (lowerStr "JoY"))
    ∧ categorize_emotion (some "Mysterylabel") = DEFAULT_EMOTION_CATEGORY :=
  ⟨c8_categorize_total.1 "JoY", c8_categorize_total.2.2.2.1 "Mysterylabel" (by decide)⟩

/-! ## Data model -/

/-- One enriched top-emotion entry as built by `extract_top_emotions`. -/
structure TopEmotion where
  name : String
  score : ℚ
  percentage : ℚ
  category : String
deriving DecidableEq

/-- One prosody or burst segment dictionary as produced by
`extract_top_emotions` and mutated by `enrich_results_with_transcript`.
`none` models a key that is absent or `None`; `transcript_index` models the
private `_transcript_index` grouping key. -/
structure Segment where
  time_start : Option ℚ
  time_end : Option ℚ
  text : Option String
  transcript_text : Option String
  speaker : Option String
  primary_category : Option String
  top_emotions : List TopEmotion
  source : String
  transcript_index : Option ℕ
deriving DecidableEq

/-- The per-file sentiment tally kept in `metadata["category_counts"]`. -/
structure Counts where
  positive : ℕ
  neutral : ℕ
  negative : ℕ
deriving DecidableEq

/-- One transcript utterance dictionary as consumed by
`enrich_results_with_transcript` (fields looked up defensively with `.get`). -/
structure TranscriptSeg where
  speaker : Option String
  start : Option ℚ
  stop : Option ℚ
  text : Option String
deriving DecidableEq

/-- The metadata block of one file result; only the keys the engine reads or
writes are modelled. -/
structure Metadata where
  category_counts : Option Counts
  retell_transcript_available : Option Bool
  retell_transcript_segments : Option (List TranscriptSeg)
  speaker : Option String
deriving DecidableEq

/-- One per-file result `{filename, prosody, burst, metadata}`. -/
structure FileResult where
  filename : String
  prosody : List Segment
  burst : List Segment
  metadata : Metadata
deriving DecidableEq

/-- One raw emotion entry of an acoustic prediction window; `none` models a
missing key (`.get` defaults apply: name "Unknown", score 0). -/
structure Emotion where
  name : Option String
  score : Option ℚ
deriving DecidableEq

/-- One raw acoustic prediction window; `time_begin`/`time_end` model
`time.get("begin"/"end", 0)`. -/
structure PredItem where
  time_begin : Option ℚ
  time_end : Option ℚ
  text : Option String
  emotions : List Emotion
deriving DecidableEq

/-- One `grouped_predictions` entry. -/
structure PredGroup where
  predictions : List PredItem
deriving DecidableEq

/-- The `models` dictionary of one prediction entry; `none` models a model
kind that is absent or `None`. -/
structure ModelsEntry where
  prosody : Option (List PredGroup)
  burst : Option (List PredGroup)
deriving DecidableEq

/-- One entry of `results.predictions`; `models = none` models a prediction
dictionary without a `models` key. -/
structure PredEntry where
  models : Option ModelsEntry
deriving DecidableEq

/-- One per-file prediction payload; `results = none` models an item without
a `results` key, and `filename = none` a missing `source.filename`. -/
structure PredFile where
  filename : Option String
  results : Option (List PredEntry)
deriving DecidableEq

/-! ## Window Deduplicator and extraction stage (`extract_top_emotions`) -/

/-- Sort key for the descending emotion sort: `x.get("score", 0)`. -/
def emScore (e : Emotion) : ℚ := e.score.getD 0

/-- Relation realising Python `sorted(emotions, key=score, reverse=True)`
(stable, descending by score). -/
def emGe (a b : Emotion) : Prop := emScore b ≤ emScore a

instance : DecidableRel emGe := fun _ _ => inferInstanceAs (Decidable (_ ≤ _))

instance : IsTotal Emotion emGe := ⟨fun a b => le_total (emScore b) (emScore a)⟩

instance : IsTrans Emotion emGe := ⟨fun _ _ _ h1 h2 => le_trans h2 h1⟩

/-- The enriched top-N list built from a window's raw emotions: sort
descending by score, keep `top_n`, attach rounded score, percentage and
category. -/
def enrichTop (top_n : ℕ) (emotions : List Emotion) : List TopEmotion :=
  ((List.insertionSort emGe emotions).take top_n).map fun e =>
    { name := e.name.getD "Unknown"
      score := roundTo 4 (emScore e)
      percentage := roundTo 1 (emScore e * 100)
      category := categorize_emotion (some (e.name.getD "Unknown")) }

/-- The rounded time-range key used for deduplication. -/
def rkey (p : PredItem) : ℚ × ℚ :=
  (round2 (p.time_begin.getD 0), round2 (p.time_end.getD 0))

/-- The prosody segment built from one window (only reached when the window
has a non-empty emotion list). -/
def mkProsodySeg (top_n : ℕ) (p : PredItem) : Segment :=
  let enriched := enrichTop top_n p.emotions
  { time_start := some (rkey p).1
    time_end := some (rkey p).2
    text := (pyTruthy p.text).map pyStrip
    transcript_text := none
    speaker := none
    primary_category := some (((enriched.head?).map TopEmotion.category).getD DEFAULT_EMOTION_CATEGORY)
    top_emotions := enriched
    source := "prosody"
    transcript_index := none }

/-- The burst segment built from one window with a non-empty emotion list;
burst windows carry no text. -/
def mkBurstSeg (top_n : ℕ) (p : PredItem) : Segment :=
  let enriched := enrichTop top_n p.emotions
  { time_start := some (rkey p).1
    time_end := some (rkey p).2
    text := none
    transcript_text := none
    speaker := none
    primary_category := some (((enriched.head?).map TopEmotion.category).getD DEFAULT_EMOTION_CATEGORY)
    top_emotions := enriched
    source := "burst"
    transcript_index := none }

/-- The prosody loop of `extract_top_emotions` (lines 424-475): walk the
flattened window stream, skip a window whose rounded time range was already
seen, record the range before the emotion check, and emit a segment only for
a first-seen range with a non-empty emotion list. -/
def prosodyAux (top_n : ℕ) (seen : List (ℚ × ℚ)) : List PredItem → List Segment
  | [] => []
  | p :: rest =>
    if rkey p ∈ seen then prosodyAux top_n seen rest
    else
      match p.emotions with
      | [] => prosodyAux top_n (rkey p :: seen) rest
      | _ :: _ => mkProsodySeg top_n p :: prosodyAux top_n (rkey p :: seen) rest

/-- The prosody segments of one prediction entry: its groups are flattened
into one window stream sharing one `seen_time_ranges` set. -/
def prosodySegsOf (top_n : ℕ) (groups : List PredGroup) : List Segment :=
  prosodyAux top_n [] (groups.flatMap PredGroup.predictions)

/-- The burst segments of one prediction entry: one segment per window with a
non-empty emotion list, no deduplication (lines 478-515). -/
def burstSegsOf (top_n : ℕ) (groups : List PredGroup) : List Segment :=
  (groups.flatMap PredGroup.predictions).filterMap fun p =>
    match p.emotions with
    | [] => none
    | _ :: _ => some (mkBurstSeg top_n p)

/-- Add one primary category to the per-file tally
(`category_counts[primary_category] += 1`; `categorize_emotion` only ever
produces the three table categories or the default). -/
def countsAdd (c : Counts) (cat : String) : Counts :=
  if cat = "positive" then { c with positive := c.positive + 1 }
  else if cat = "neutral" then { c with neutral := c.neutral + 1 }
  else if cat = "negative" then { c with negative := c.negative + 1 }
  else c

/-- The final `category_counts` of a file: in the source the tally is
incremented exactly when a segment is appended, with the appended segment's
`primary_category`, so it equals the tally over all emitted segments. -/
def fileCounts (segs : List Segment) : Counts :=
  segs.foldl (fun c s => countsAdd c (s.primary_category.getD DEFAULT_EMOTION_CATEGORY)) ⟨0, 0, 0⟩

/-- Embedding of the per-file body of `extract_top_emotions`: skipped when
the `results` key is absent or the prediction list is empty. -/
def extractFile (top_n : ℕ) (f : PredFile) : Option FileResult :=
  match f.results with
  | none => none
  | some [] => none
  | some preds =>
    let prosody := preds.flatMap fun pe =>
      match pe.models with
      | none => []
      | some ms =>
        match ms.prosody with
        | none => []
        | some groups => prosodySegsOf top_n groups
    let burst := preds.flatMap fun pe =>
      match pe.models with
      | none => []
      | some ms =>
        match ms.burst with
        | none => []
        | some groups => burstSegsOf top_n groups
    some { filename := f.filename.getD "unknown"
           prosody := prosody
           burst := burst
           metadata := { category_counts := some (fileCounts (prosody ++ burst))
                         retell_transcript_available := none
                         retell_transcript_segments := none
                         speaker := none } }

/-- Embedding of `extract_top_emotions` (lines 373-521); `top_n` defaults to
1 at the call sites. -/
def extract_top_emotions (predictions_data : List PredFile) (top_n : ℕ) : List FileResult :=
  predictions_data.filterMap (extractFile top_n)

/-! ## Claim C4: deduplication of identical rounded time ranges -/

/-- Definition following the spec's words for the Deduplicator: keep, per
rounded time range, the first window occurring in input order (ranges in
`seen` count as already kept). Compared below against the extraction code. -/
def specFirstOccurrences (seen : List (ℚ × ℚ)) : List PredItem → List PredItem
  | [] => []
  | p :: rest =>
    if rkey p ∈ seen then specFirstOccurrences seen rest
    else p :: specFirstOccurrences (rkey p :: seen) rest

/-- Emission applied to a kept prosody window: a segment when the window has
a non-empty emotion list, nothing otherwise. -/
def emitProsody (top_n : ℕ) (p : PredItem) : Option Segment :=
  match p.emotions with
  | [] => none
  | _ :: _ => some (mkProsodySeg top_n p)

theorem prosodyAux_eq_spec (top_n : ℕ) (seen : List (ℚ × ℚ)) (l : List PredItem) :
    prosodyAux top_n seen l = (specFirstOccurrences seen l).filterMap (emitProsody top_n) := by
  induction l generalizing seen with
  | nil => rfl
  | cons p rest ih =>
    unfold prosodyAux specFirstOccurrences
    by_cases h : rkey p ∈ seen
    · rw [if_pos h, if_pos h, ih]
    · rw [if_neg h, if_neg h, List.filterMap_cons]
      cases he : p.emotions with
      | nil =>
        have : emitProsody top_n p = none := by
          unfold emitProsody
          rw [he]
        rw [this, ih]
      | cons e es =>
        have : emitProsody top_n p = some (mkProsodySeg top_n p) := by
          unfold emitProsody
          rw [he]
        rw [this, ih]

theorem specFirstOccurrences_nodup (seen : List (ℚ × ℚ)) (l : List PredItem) :
    ((specFirstOccurrences seen l).map rkey).Nodup
    ∧ ∀ k ∈ (specFirstOccurrences seen l).map rkey, k ∉ seen := by
  induction l generalizing seen with
  | nil => exact ⟨by simp [specFirstOccurrences], by simp [specFirstOccurrences]⟩
  | cons p rest ih =>
    unfold specFirstOccurrences
    by_cases h : rkey p ∈ seen
    · rw [if_pos h]
      exact ih seen
    · rw [if_neg h]
      obtain ⟨hnd, hout⟩ := ih (rkey p :: seen)
      refine ⟨List.nodup_cons.mpr ⟨fun hmem => ?_, hnd⟩, ?_⟩
      · exact (hout _ hmem) (List.mem_cons_self _ _)
      · intro k hk
        simp only [List.map_cons, List.mem_cons] at hk
        cases hk with
        | inl hk => exact hk ▸ h
        | inr hk => exact fun hs => (hout k hk) (List.mem_cons_of_mem _ hs)

/-- Concrete input refuting C4 for the burst model kind: one prediction entry
whose burst stream holds two windows with the identical time range 1-2 s but
different emotion rankings. -/
def c4File : PredFile :=
  { filename := some "call.wav"
    results := some [
      { models := some
          { prosody := none
            burst := some [
              { predictions := [
                  { time_begin := some 1, time_end := some 2, text := none,
                    emotions := [{ name := some "Amusement", score := some (1/2) }] },
                  { time_begin := some 1, time_end := some 2, text := none,
                    emotions := [{ name := some "Joy", score := some (3/5) }] }] }] } }] }

/-- Counterexample to C4: on `c4File` the extraction stage emits TWO burst
segments for the single rounded time range `(1, 2)` — burst windows are not
deduplicated — refuting "per model kind (prosody and burst alike) ... exactly
one segment for that rounded time range". -/
theorem c4_counterexample :
    ((extract_top_emotions [c4File] 1).map fun r =>
        r.burst.map fun s => (s.time_start, s.time_end))
      = [[(some 1, some 2), (some 1, some 2)]] := by
  decide

/-- C4 as amended: only the prosody stream is deduplicated, per prediction
entry: the prosody loop emits segments exactly for the first occurrence of
each rounded time range (and only when that first occurrence has a non-empty
emotion list), and the kept occurrences have pairwise distinct rounded keys;
burst windows are emitted without any deduplication. -/
theorem c4_amended (top_n : ℕ) (groups : List PredGroup) :
    prosodySegsOf top_n groups
      = (specFirstOccurrences [] (groups.flatMap PredGroup.predictions)).filterMap
          (emitProsody top_n)
    ∧ ((specFirstOccurrences [] (groups.flatMap PredGroup.predictions)).map rkey).Nodup
    ∧ burstSegsOf top_n groups
      = (groups.flatMap PredGroup.predictions).filterMap fun p =>
          match p.emotions with
          | [] => none
          | _ :: _ => some (mkBurstSeg top_n p) :=
  ⟨prosodyAux_eq_spec top_n [] _, (specFirstOccurrences_nodup [] _).1, rfl⟩

/-! ## Transcript Aligner (`_find_best_transcript_match`,
`enrich_results_with_transcript`) -/

/-- Interval overlap `max(0, min(end, seg_end) - max(start, seg_start))`
with the `.get(..., 0.0)` defaults of `_find_best_transcript_match`. -/
def overlapOf (start stop : ℚ) (u : TranscriptSeg) : ℚ :=
  max 0 (min stop (u.stop.getD 0) - max start (u.start.getD 0))

/-- Recursion of `_find_best_transcript_match` (lines 635-653), additionally
tracking the position of the winner: the first utterance with the strictly
largest positive overlap is kept (`overlap > best_overlap`, starting from 0).
The position recorded equals Python's later `transcript_segments.index(...)`
lookup: equal dictionaries have equal overlap, so the first best-overlap
utterance is also the first list element equal to it. -/
def findBestGo (start stop : ℚ) :
    List TranscriptSeg → ℕ → ℚ → Option (ℕ × TranscriptSeg) → Option (ℕ × TranscriptSeg)
  | [], _, _, best => best
  | u :: rest, i, bestOv, best =>
    if bestOv < overlapOf start stop u then
      findBestGo start stop rest (i + 1) (overlapOf start stop u) (some (i, u))
    else
      findBestGo start stop rest (i + 1) bestOv best

/-- Embedding of `_find_best_transcript_match`. -/
def find_best_transcript_match (start stop : ℚ) (ts : List TranscriptSeg) :
    Option (ℕ × TranscriptSeg) :=
  findBestGo start stop ts 0 0 none

/-- First pass of the prosody path (lines 669-685): attach the best-overlap
utterance's speaker; when that utterance has truthy text, also re-anchor the
window's time range to the utterance's rounded range and record the
utterance index for grouping. -/
def matchPass (ts : List TranscriptSeg) (seg : Segment) : Segment :=
  let start := seg.time_start.getD 0
  let stop := seg.time_end.getD 0
  match find_best_transcript_match start stop ts with
  | none => seg
  | some (i, m) =>
    match pyTruthy m.text with
    | none => { seg with speaker := m.speaker }
    | some txt =>
      { seg with
          speaker := m.speaker
          transcript_text := some txt
          text := some txt
          time_start := some (round2 (m.start.getD start))
          time_end := some (round2 (m.stop.getD stop))
          transcript_index := some i }

/-- Second-pass filter (lines 691-702): a segment enters the utterance group
of its recorded index when it has a truthy, non-blank text. -/
def eligible (seg : Segment) : Option ℕ :=
  match seg.transcript_index with
  | none => none
  | some i =>
    match pyOr seg.text seg.transcript_text with
    | none => none
    | some t => if pyStrip t = "" then none else some i

/-- The Python `max` key of the representative selection: the top-ranked
emotion's score, 0 for an empty ranking. -/
def topScore (s : Segment) : ℚ :=
  match s.top_emotions with
  | [] => 0
  | e :: _ => e.score

/-- Python `max(segments, key=topScore)`: the first segment attaining the
maximal key (later segments replace the current best only on a strictly
greater key). -/
def pickBest : Segment → List Segment → Segment
  | best, [] => best
  | best, s :: rest => pickBest (if topScore best < topScore s then s else best) rest

/-- Third-pass body for one utterance index (lines 707-735): skip an empty
group, an out-of-range index, or an utterance without both times; otherwise
emit the group's best segment re-anchored to the utterance's exact rounded
range with the utterance's speaker and text. -/
def groupEmit (ts : List TranscriptSeg) (segs : List Segment) (i : ℕ) : Option Segment :=
  match segs.filter (fun s => eligible s = some i) with
  | [] => none
  | g0 :: gr =>
    if h : i < ts.length then
      match (ts.get ⟨i, h⟩).start, (ts.get ⟨i, h⟩).stop with
      | some a, some b =>
        some { pickBest g0 gr with
                 time_start := some (round2 a)
                 time_end := some (round2 b)
                 speaker := pyOr (ts.get ⟨i, h⟩).speaker (pickBest g0 gr).speaker
                 transcript_text := pyOr (ts.get ⟨i, h⟩).text (pickBest g0 gr).transcript_text
                 text := pyOr (ts.get ⟨i, h⟩).text (pickBest g0 gr).transcript_text
                 transcript_index := none }
      | _, _ => none
    else none

/-- The distinct utterance indices of the groups, ascending
(`sorted(transcript_groups.items())`). -/
def sortedKeys (segs : List Segment) : List ℕ :=
  List.insertionSort (fun a b => a ≤ b) (segs.filterMap eligible).dedup

/-- The enriched prosody list before the final chronological sort. -/
def representatives (ts : List TranscriptSeg) (segs : List Segment) : List Segment :=
  (sortedKeys segs).filterMap (groupEmit ts segs)

/-- Chronological order on segments (`key=lambda s: s.get("time_start", 0)`). -/
def prosLe (a b : Segment) : Prop := a.time_start.getD 0 ≤ b.time_start.getD 0

instance : DecidableRel prosLe := fun _ _ => inferInstanceAs (Decidable (_ ≤ _))

instance : IsTotal Segment prosLe := ⟨fun a b => le_total (a.time_start.getD 0) (b.time_start.getD 0)⟩

instance : IsTrans Segment prosLe := ⟨fun _ _ _ h1 h2 => le_trans h1 h2⟩

/-- Burst annotation (lines 744-752): attach the best-overlap utterance's
speaker, and its text as `transcript_text` when truthy; the burst segment's
own timing is never altered. -/
def burstAnnotate (ts : List TranscriptSeg) (seg : Segment) : Segment :=
  match find_best_transcript_match (seg.time_start.getD 0) (seg.time_end.getD 0) ts with
  | none => seg
  | some (_, m) =>
    match pyTruthy m.text with
    | none => { seg with speaker := m.speaker }
    | some txt => { seg with speaker := m.speaker, transcript_text := some txt }

/-- The per-result body of `enrich_results_with_transcript`: match, group,
pick representatives, sort prosody chronologically, annotate bursts, and
stamp the transcript metadata; `category_counts` is not touched. -/
def enrichResult (ts : List TranscriptSeg) (r : FileResult) : FileResult :=
  let segs1 := r.prosody.map (matchPass ts)
  { r with
      prosody := List.insertionSort prosLe (representatives ts segs1)
      burst := r.burst.map (burstAnnotate ts)
      metadata := { r.metadata with
                      retell_transcript_available := some true
                      retell_transcript_segments := some ts } }

/-- Embedding of `enrich_results_with_transcript` (lines 656-758): a falsy
transcript argument (absent or empty) returns the results unchanged. -/
def enrich_results_with_transcript (results : List FileResult) :
    Option (List TranscriptSeg) → List FileResult
  | none => results
  | some [] => results
  | some (u :: us) => results.map (enrichResult (u :: us))

/-! ## Claims C5 and C6: re-anchoring and representative selection -/

theorem topScore_congr {s t : Segment} (h : s.top_emotions = t.top_emotions) :
    topScore s = topScore t := by
  unfold topScore
  rw [h]

theorem pickBest_mem (b : Segment) (l : List Segment) : pickBest b l ∈ b :: l := by
  induction l generalizing b with
  | nil => exact List.mem_singleton.mpr rfl
  | cons s rest ih =>
    unfold pickBest
    by_cases hc : topScore b < topScore s
    · rw [if_pos hc]
      exact List.mem_cons_of_mem _ (ih s)
    · rw [if_neg hc]
      rcases List.mem_cons.mp (ih b) with h | h
      · rw [h]
        exact List.mem_cons_self _ _
      · exact List.mem_cons_of_mem _ (List.mem_cons_of_mem _ h)

theorem pickBest_le (b : Segment) (l : List Segment) :
    ∀ t ∈ b :: l, topScore t ≤ topScore (pickBest b l) := by
  induction l generalizing b with
  | nil =>
    intro t ht
    rw [List.mem_singleton.mp ht]
    exact le_refl _
  | cons s rest ih =>
    intro t ht
    unfold pickBest
    by_cases hc : topScore b < topScore s
    · rw [if_pos hc]
      rcases List.mem_cons.mp ht with rfl | h
      · exact le_trans (le_of_lt hc) (ih s s (List.mem_cons_self _ _))
      · exact ih s t h
    · rw [if_neg hc]
      rcases List.mem_cons.mp ht with rfl | h
      · exact ih t t (List.mem_cons_self _ _)
      · rcases List.mem_cons.mp h with rfl | h2
        · exact le_trans (le_of_not_lt hc) (ih b b (List.mem_cons_self _ _))
        · exact ih b t (List.mem_cons_of_mem _ h2)

theorem groupEmit_eq_some {ts : List TranscriptSeg} {segs : List Segment} {i : ℕ} {s : Segment}
    (h : groupEmit ts segs i = some s) :
    ∃ (hlt : i < ts.length) (a b : ℚ) (g0 : Segment) (gr : List Segment),
      segs.filter (fun x => eligible x = some i) = g0 :: gr
      ∧ (ts.get ⟨i, hlt⟩).start = some a ∧ (ts.get ⟨i, hlt⟩).stop = some b
      ∧ s.time_start = some (round2 a) ∧ s.time_end = some (round2 b)
      ∧ s.top_emotions = (pickBest g0 gr).top_emotions := by
  unfold groupEmit at h
  split at h
  next hf =>
    exact absurd h (by simp)
  next g0 gr hf =>
    split at h
    next hlt =>
      split at h
      next a b ha hb =>
        simp only [Option.some.injEq] at h
        refine ⟨hlt, a, b, g0, gr, hf, ha, hb, ?_, ?_, ?_⟩ <;> rw [← h]
      next hmm =>
        exact absurd h (by simp)
    next hlt =>
      exact absurd h (by simp)

/-- C5: every ReconciledSegment produced from a matched prosody group carries
the matched utterance's start and end, each rounded to two decimals, as its
time range. -/
theorem c5_reanchoring (results : List FileResult) (ts : List TranscriptSeg)
    (r : FileResult) (s : Segment) (hts : ts ≠ [])
    (hr : r ∈ enrich_results_with_transcript results (some ts)) (hs : s ∈ r.prosody) :
    ∃ i u, ts.get? i = some u ∧ ∃ a b, u.start = some a ∧ u.stop = some b
      ∧ s.time_start = some (round2 a) ∧ s.time_end = some (round2 b) := by
  cases ts with
  | nil => exact absurd rfl hts
  | cons u0 us =>
    unfold enrich_results_with_transcript at hr
    obtain ⟨r0, _, hr0⟩ := List.mem_map.mp hr
    subst hr0
    unfold enrichResult at hs
    simp only [List.mem_insertionSort] at hs
    obtain ⟨i, _, hemit⟩ := List.mem_filterMap.mp hs
    obtain ⟨hlt, a, b, g0, gr, _, ha, hb, hstart, hstop, _⟩ := groupEmit_eq_some hemit
    exact ⟨i, (u0 :: us).get ⟨i, hlt⟩, List.get?_eq_get hlt, a, b, ha, hb, hstart, hstop⟩

/-- C6: when two or more acoustic prosody segments are grouped on the same
utterance, the emitted representative carries the emotion ranking of a group
member whose top-ranked score is maximal across the group. -/
theorem c6_representative_max (ts : List TranscriptSeg) (segs : List Segment)
    (i : ℕ) (s : Segment) (h : groupEmit ts segs i = some s)
    (h2 : 2 ≤ (segs.filter (fun x => eligible x = some i)).length) :
    (∃ t ∈ segs.filter (fun x => eligible x = some i), s.top_emotions = t.top_emotions)
    ∧ ∀ t ∈ segs.filter (fun x => eligible x = some i), topScore t ≤ topScore s := by
  obtain ⟨hlt, a, b, g0, gr, hf, ha, hb, hstart, hstop, hte⟩ := groupEmit_eq_some h
  rw [hf]
  constructor
  · exact ⟨pickBest g0 gr, pickBest_mem g0 gr, hte⟩
  · intro t ht
    rw [topScore_congr hte]
    exact pickBest_le g0 gr t ht

/-! ## Concrete witnesses for C5 and C6 -/

/-- A one-utterance transcript used by the C5 witness. -/
def c5Ts : List TranscriptSeg :=
  [{ speaker := some "Customer", start := some (1/2), stop := some (7/2),
     text := some "hello there" }]

/-- An acoustic prosody window overlapping the C5 utterance. -/
def c5Result : FileResult :=
  { filename := "f"
    prosody := [{ time_start := some 0, time_end := some 4, text := none,
                  transcript_text := none, speaker := none,
                  primary_category := some "positive",
                  top_emotions := [{ name := "Joy", score := 3/5, percentage := 60,
                                     category := "positive" }],
                  source := "prosody", transcript_index := none }]
    burst := []
    metadata := { category_counts := none, retell_transcript_available := none,
                  retell_transcript_segments := none, speaker := none } }

/-- The segment the aligner emits for `c5Result` against `c5Ts`. -/
def c5OutSeg : Segment :=
  { time_start := some (1/2), time_end := some (7/2), text := some "hello there",
    transcript_text := some "hello there", speaker := some "Customer",
    primary_category := some "positive",
    top_emotions := [{ name := "Joy", score := 3/5, percentage := 60,
                       category := "positive" }],
    source := "prosody", transcript_index := none }

/-- Witness for C5: on the concrete run the emitted segment's range is the
utterance's rounded range, not the acoustic window's 0-4 s. -/
theorem c5_reanchoring_witness :
    ∃ i u, c5Ts.get? i = some u ∧ ∃ a b, u.start = some a ∧ u.stop = some b
      ∧ c5OutSeg.time_start = some (round2 a) ∧ c5OutSeg.time_end = some (round2 b) :=
  c5_reanchoring [c5Result] c5Ts (enrichResult c5Ts c5Result) c5OutSeg
    (by decide) (by decide) (by decide)

/-- A one-utterance transcript used by the C6 witness. -/
def c6Ts : List TranscriptSeg :=
  [{ speaker := some "Customer", start := some (1/2), stop := some (7/2),
     text := some "hi" }]

/-- Two matched prosody segments grouped on utterance 0, with top scores 0.6
and 0.8. -/
def c6Segs : List Segment :=
  [{ time_start := some (1/2), time_end := some (7/2), text := some "hi",
     transcript_text := some "hi", speaker := some "Customer",
     primary_category := some "positive",
     top_emotions := [{ name := "Joy", score := 3/5, percentage := 60,
                        category := "positive" }],
     source := "prosody", transcript_index := some 0 },
   { time_start := some (1/2), time_end := some (7/2), text := some "hi",
     transcript_text := some "hi", speaker := some "Customer",
     primary_category := some "negative",
     top_emotions := [{ name := "Anger", score := 4/5, percentage := 80,
                        category := "negative" }],
     source := "prosody", transcript_index := some 0 }]

/-- The representative the aligner emits for the C6 group (the 0.8 window). -/
def c6Out : Segment :=
  { time_start := some (1/2), time_end := some (7/2), text := some "hi",
    transcript_text := some "hi", speaker := some "Customer",
    primary_category := some "negative",
    top_emotions := [{ name := "Anger", score := 4/5, percentage := 80,
                       category := "negative" }],
    source := "prosody", transcript_index := none }

/-- Witness for C6 at a concrete two-element group. -/
theorem c6_representative_max_witness :
    (∃ t ∈ c6Segs.filter (fun x => eligible x = some 0), c6Out.top_emotions = t.top_emotions)
    ∧ ∀ t ∈ c6Segs.filter (fun x => eligible x = some 0), topScore t ≤ topScore c6Out :=
  c6_representative_max c6Ts c6Segs 0 c6Out (by decide) (by decide)

/-! ## Claim C3: ordering after the alignment stage -/

/-- Decidable check that a segment list is non-decreasing by
`time_start` (with the sort key's `.get("time_start", 0)` default). -/
def nondecreasingByStart : List Segment → Bool
  | [] => true
  | [_] => true
  | a :: b :: rest =>
    if a.time_start.getD 0 ≤ b.time_start.getD 0 then nondecreasingByStart (b :: rest)
    else false

theorem nondecreasingByStart_of_sorted :
    ∀ l : List Segment, List.Sorted prosLe l → nondecreasingByStart l = true := by
  intro l
  induction l with
  | nil => intro _; rfl
  | cons a t ih =>
    intro h
    cases t with
    | nil => rfl
    | cons b rest =>
      rw [List.sorted_cons] at h
      unfold nondecreasingByStart
      rw [if_pos (show a.time_start.getD 0 ≤ b.time_start.getD 0 from
            h.1 b (List.mem_cons_self b rest))]
      exact ih h.2

/-- A file result whose burst list arrives out of chronological order. -/
def c3Result : FileResult :=
  { filename := "f"
    prosody := []
    burst := [{ time_start := some 5, time_end := some 6, text := none,
                transcript_text := none, speaker := none,
                primary_category := some "positive",
                top_emotions := [{ name := "Joy", score := 3/5, percentage := 60,
                                   category := "positive" }],
                source := "burst", transcript_index := none },
              { time_start := some 1, time_end := some 2, text := none,
                transcript_text := none, speaker := none,
                primary_category := some "negative",
                top_emotions := [{ name := "Anger", score := 4/5, percentage := 80,
                                   category := "negative" }],
                source := "burst", transcript_index := none }]
    metadata := { category_counts := none, retell_transcript_available := none,
                  retell_transcript_segments := none, speaker := none } }

/-- The transcript used for the C3 runs. -/
def c3Ts : List TranscriptSeg :=
  [{ speaker := some "Customer", start := some (1/2), stop := some (7/2),
     text := some "hello" }]

/-- Counterexample to C3: the alignment stage leaves the burst list in input
order, so after it runs on `c3Result` (burst windows at 5-6 s then 1-2 s) the
burst list is NOT non-decreasing by `time_start`. -/
theorem c3_counterexample :
    ((enrich_results_with_transcript [c3Result] (some c3Ts)).map fun r =>
        nondecreasingByStart r.burst) = [false] := by
  decide

/-- C3 as amended: after the alignment stage runs with a non-empty
transcript, every result's prosody list is non-decreasing by `time_start`
regardless of input order, while the burst list is merely the input burst
list annotated in place (so it is chronological only if the input was). -/
theorem c3_amended (results : List FileResult) (ts : List TranscriptSeg) (r : FileResult)
    (hts : ts ≠ []) (hr : r ∈ enrich_results_with_transcript results (some ts)) :
    nondecreasingByStart r.prosody = true
    ∧ ∃ r0 ∈ results, r.burst = r0.burst.map (burstAnnotate ts) := by
  cases ts with
  | nil => exact absurd rfl hts
  | cons u0 us =>
    unfold enrich_results_with_transcript at hr
    obtain ⟨r0, hr0mem, hr0⟩ := List.mem_map.mp hr
    subst hr0
    constructor
    · exact nondecreasingByStart_of_sorted _ (List.sorted_insertionSort prosLe _)
    · exact ⟨r0, hr0mem, rfl⟩

/-- Witness for the amended C3 on the concrete out-of-order input. -/
theorem c3_amended_witness :
    nondecreasingByStart (enrichResult c3Ts c3Result).prosody = true
    ∧ ∃ r0 ∈ [c3Result], (enrichResult c3Ts c3Result).burst
        = r0.burst.map (burstAnnotate c3Ts) :=
  c3_amended [c3Result] c3Ts (enrichResult c3Ts c3Result) (by decide) (by decide)

/-! ## Claim C9: alignment leaves `category_counts` untouched -/

/-- Prediction payload for the C9 run: two overlapping prosody windows
(0-4 s scoring Joy 0.6, 1-5 s scoring Anger 0.8) with distinct rounded
ranges, so extraction emits two segments and tallies one positive and one
negative. -/
def c9File : PredFile :=
  { filename := some "call.wav"
    results := some [
      { models := some
          { prosody := some [
              { predictions := [
                  { time_begin := some 0, time_end := some 4, text := none,
                    emotions := [{ name := some "Joy", score := some (3/5) }] },
                  { time_begin := some 1, time_end := some 5, text := none,
                    emotions := [{ name := some "Anger", score := some (4/5) }] }] }]
            burst := none } }] }

/-- Transcript for the C9 run: one utterance both windows overlap. -/
def c9Ts : List TranscriptSeg :=
  [{ speaker := some "Customer", start := some (1/2), stop := some (7/2),
     text := some "hello there" }]

/-- The `category_counts` tally the C9 run produces. -/
def c9Counts : Counts := { positive := 1, neutral := 0, negative := 1 }

/-- C9: the alignment stage never changes any result's
`metadata["category_counts"]`, and consequently (concrete run below) the sum
of the three counts can exceed the number of segments left in the timeline:
extraction on `c9File` tallies two windows, alignment against `c9Ts`
collapses them into a single segment, and the tally still sums to two. -/
theorem c9_counts_frame :
    (∀ (results : List FileResult) (t : Option (List TranscriptSeg)),
        (enrich_results_with_transcript results t).map (fun r => r.metadata.category_counts)
          = results.map fun r => r.metadata.category_counts)
    ∧ ((enrich_results_with_transcript (extract_top_emotions [c9File] 1) (some c9Ts)).map
          fun r => (r.metadata.category_counts, r.prosody.length + r.burst.length))
        = [(some c9Counts, 1)]
    ∧ 1 < c9Counts.positive + c9Counts.neutral + c9Counts.negative := by
  refine ⟨fun results t => ?_, by decide, by decide⟩
  cases t with
  | none => rfl
  | some ts =>
    cases ts with
    | nil => rfl
    | cons u us =>
      unfold enrich_results_with_transcript
      rw [List.map_map]
      exact List.map_congr_left fun r _ => rfl

/-! ## Outcome Classifier (`_normalize_sentiment_category`,
`determine_overall_call_emotion`) -/

/-- Embedding of `_normalize_sentiment_category` (lines 921-927): falsy
values and anything whose stripped lower-case form is not one of the three
sentiment words collapse to the default category. -/
def normalize_sentiment_category (value : Option String) : String :=
  match value with
  | none => DEFAULT_EMOTION_CATEGORY
  | some s =>
    if s = "" then DEFAULT_EMOTION_CATEGORY
    else
      if lowerStr (pyStrip s) = "positive" ∨ lowerStr (pyStrip s) = "neutral"
          ∨ lowerStr (pyStrip s) = "negative" then
        lowerStr (pyStrip s)
      else DEFAULT_EMOTION_CATEGORY

/-- One entry of the timeline assembled by `determine_overall_call_emotion`
(lines 963-970); all fields are present by construction there. -/
structure TimelineSeg where
  start : ℚ
  stop : ℚ
  speaker : String
  category : String
  emotion : Option String
  text : String
deriving DecidableEq

/-- The OutcomeJudgment shape `{label, call_outcome, confidence, reasoning,
source}`. -/
structure Judgment where
  label : String
  call_outcome : String
  confidence : ℚ
  reasoning : String
  source : String
deriving DecidableEq

/-- The external classifier's reply after JSON extraction, with `none` for a
key that is absent (or whose value the code cannot convert: a `confidence`
that `float()` rejects is `none`); `has_other_keys` records whether the
parsed object carried any further keys, so that `truthy` below coincides
with Python's non-empty-dict test. A reply that failed to parse at all is
represented by `none` at the call sites. -/
structure ParsedResponse where
  overall_emotion : Option String
  call_outcome : Option String
  confidence : Option ℚ
  reasoning : Option String
  has_other_keys : Bool
deriving DecidableEq

/-- Python truthiness of the parsed dictionary (`if parsed:`). -/
def ParsedResponse.truthy (p : ParsedResponse) : Bool :=
  p.overall_emotion.isSome || p.call_outcome.isSome || p.confidence.isSome
    || p.reasoning.isSome || p.has_other_keys

/-- The model-assisted path's judgment construction (lines 1042-1072),
starting from the lenient parse result (`none` models an unavailable client,
a request failure, or a reply in which no object could be parsed). When the
parsed object is truthy it always yields a judgment: the label is the
normalized `overall_emotion` (so a missing or invalid value becomes
"neutral"), an invalid `call_outcome` is derived from the label, a missing
confidence becomes 0.75, and the final membership test on the normalized
label can never fail. -/
def modelJudgmentOf (p : ParsedResponse) : Option Judgment :=
    if p.truthy then
      if normalize_sentiment_category p.overall_emotion = "positive"
          ∨ normalize_sentiment_category p.overall_emotion = "neutral"
          ∨ normalize_sentiment_category p.overall_emotion = "negative" then
        some { label := normalize_sentiment_category p.overall_emotion
               call_outcome :=
                 if lowerStr (pyStrip ((pyTruthy p.call_outcome).getD "")) = "success"
                     ∨ lowerStr (pyStrip ((pyTruthy p.call_outcome).getD "")) = "pending"
                     ∨ lowerStr (pyStrip ((pyTruthy p.call_outcome).getD "")) = "unsuccessful" then
                   lowerStr (pyStrip ((pyTruthy p.call_outcome).getD ""))
                 else if normalize_sentiment_category p.overall_emotion = "positive" then "success"
                 else if normalize_sentiment_category p.overall_emotion = "negative" then "unsuccessful"
                 else "pending"
               confidence := p.confidence.getD (3/4)
               reasoning := ((pyTruthy p.reasoning).map pyStrip).getD ""
               source := "openai" }
      else none
    else none

/-- The model path on the optional parse result: no reply, no judgment. -/
def modelPathJudgment : Option ParsedResponse → Option Judgment
  | none => none
  | some p => modelJudgmentOf p

/-- The deferral keywords of the deterministic fallback (lines 1078-1081). -/
def deferral_keywords : List String :=
  ["call back", "later", "another time", "not a good time", "busy",
   "can\x27t talk", "cannot talk", "next time", "maybe later"]

/-- The deterministic fallback judgment built from the final customer
segment (lines 1076-1102). -/
def fallbackJudgment (fc : TimelineSeg) : Judgment :=
  let label0 := normalize_sentiment_category (some fc.category)
  let deferral := deferral_keywords.any fun k => containsSub (lowerStr fc.text) k
  let label :=
    if deferral then (if label0 ≠ "negative" then "neutral" else "negative")
    else label0
  let outcome :=
    if deferral then "pending"
    else
      if label0 = "positive" then "success"
      else if label0 = "neutral" then "pending"
      else if label0 = "negative" then "unsuccessful"
      else "pending"
  { label := label
    call_outcome := outcome
    confidence := if label = "positive" then 3/5 else 1/2
    reasoning :=
      "Fallback classification from final customer segment"
        ++ (if fc.text ≠ "" then ": \x27" ++ fc.text ++ "\x27" else "")
    source := "fallback" }

/-- One timeline entry built from a prosody segment (lines 944-970): skipped
without a `time_start`; `time_end` falls back to `time_start` per
`segment.get("time_end", time_start)`. -/
def buildTimelineSeg (md : Metadata) (seg : Segment) : Option TimelineSeg :=
  match seg.time_start with
  | none => none
  | some s =>
    some { start := round2 s
           stop := round2 (seg.time_end.getD s)
           speaker := (pyOr seg.speaker md.speaker).getD "Unknown"
           category := normalize_sentiment_category
             (match pyTruthy seg.primary_category with
              | some c => some c
              | none =>
                match seg.top_emotions with
                | [] => none
                | e :: _ => some e.category)
           emotion :=
             match seg.top_emotions with
             | [] => none
             | e :: _ => some e.name
           text := pyStrip ((pyOr seg.text seg.transcript_text).getD "") }

/-- The flattened timeline over all results' prosody segments. -/
def buildTimeline (results : List FileResult) : List TimelineSeg :=
  results.foldr (fun r acc => r.prosody.filterMap (buildTimelineSeg r.metadata) ++ acc) []

/-- Speaker roles counted as the customer (line 979). -/
def isCustomerRole (sp : String) : Bool :=
  lowerStr sp = "customer" || lowerStr sp = "user" || lowerStr sp = "caller"

/-- Chronological order on timeline entries (`key=item.get("start", 0.0)`). -/
def tlLe (a b : TimelineSeg) : Prop := a.start ≤ b.start

instance : DecidableRel tlLe := fun _ _ => inferInstanceAs (Decidable (_ ≤ _))

instance : IsTotal TimelineSeg tlLe := ⟨fun a b => le_total a.start b.start⟩

instance : IsTrans TimelineSeg tlLe := ⟨fun _ _ _ h1 h2 => le_trans h1 h2⟩

/-- Embedding of `determine_overall_call_emotion` (lines 930-1108) with the
external classifier injected as its parsed reply (`none` = unavailable or
failed). An empty results list or an empty assembled timeline yields no
judgment; otherwise the timeline is sorted chronologically, the last
customer-labelled entry (default: the last entry) becomes the final customer
segment, and the model path's judgment is returned when it produced one,
else the deterministic fallback's. The tail window and aggregate counts only
feed the external prompt, which the injected reply already stands for. -/
def determine_overall_call_emotion (results : List FileResult)
    (response : Option ParsedResponse) : Option Judgment :=
  match results with
  | [] => none
  | _ :: _ =>
    match buildTimeline results with
    | [] => none
    | t0 :: trest =>
      let sorted := List.insertionSort tlLe (t0 :: trest)
      let finalCust :=
        match sorted.reverse.find? (fun s => isCustomerRole s.speaker) with
        | some s => s
        | none => sorted.getLastD t0
      match modelPathJudgment response with
      | some j => some j
      | none => some (fallbackJudgment finalCust)

/-! ## Claim C7: no judgment without timeline segments -/

theorem buildTimeline_eq_nil (results : List FileResult)
    (h : ∀ r ∈ results, ∀ s ∈ r.prosody, s.time_start = none) :
    buildTimeline results = [] := by
  induction results with
  | nil => rfl
  | cons r rs ih =>
    unfold buildTimeline
    simp only [List.foldr_cons]
    have h1 : r.prosody.filterMap (buildTimelineSeg r.metadata) = [] := by
      rw [List.filterMap_eq_nil_iff]
      intro s hs
      have hst := h r (List.mem_cons_self _ _) s hs
      unfold buildTimelineSeg
      rw [hst]
    rw [h1, List.nil_append]
    exact ih fun r' hr' => h r' (List.mem_cons_of_mem _ hr')

/-- C7: with an empty results list, or when no result contributes a timeline
segment carrying a numeric `time_start` (from which a missing `time_end`
would be defaulted), the Outcome Classifier returns no judgment at all. -/
theorem c7_empty_timeline_null (results : List FileResult)
    (response : Option ParsedResponse)
    (h : results = [] ∨ ∀ r ∈ results, ∀ s ∈ r.prosody, s.time_start = none) :
    determine_overall_call_emotion results response = none := by
  cases h with
  | inl h =>
    subst h
    rfl
  | inr h =>
    cases results with
    | nil => rfl
    | cons r rs =>
      have htl : buildTimeline (r :: rs) = [] := buildTimeline_eq_nil _ h
      unfold determine_overall_call_emotion
      rw [htl]

/-- Witness for C7 at the empty results list. -/
theorem c7_empty_timeline_null_witness :
    determine_overall_call_emotion [] none = none :=
  c7_empty_timeline_null [] none (Or.inl rfl)

/-! ## Claim C1: fallback on a deferral with a negative category -/

/-- The C1 scenario: one result whose single prosody segment is the customer
saying "can you call me back later" at 10-12 s with category negative. -/
def c1Result : FileResult :=
  { filename := "f"
    prosody := [{ time_start := some 10, time_end := some 12,
                  text := some "can you call me back later",
                  transcript_text := none, speaker := some "Customer",
                  primary_category := some "negative",
                  top_emotions := [{ name := "Distress", score := 7/10,
                                     percentage := 70, category := "negative" }],
                  source := "prosody", transcript_index := none }]
    burst := []
    metadata := { category_counts := none, retell_transcript_available := none,
                  retell_transcript_segments := none, speaker := none } }

/-- Counterexample to C1: on the deferral scenario with a negative category
the fallback path yields label "negative" (the negative category survives),
not the label "neutral" the claim requires. -/
theorem c1_counterexample :
    determine_overall_call_emotion [c1Result] none
      = some { label := "negative", call_outcome := "pending", confidence := 1/2,
               reasoning := "Fallback classification from final customer segment: \x27can you call me back later\x27",
               source := "fallback" }
    ∧ (determine_overall_call_emotion [c1Result] none).map Judgment.label ≠ some "neutral" := by
  decide

/-- C1 as amended: when the final customer segment's text contains a
deferral keyword and its category is negative, the deterministic fallback
returns `call_outcome = pending` but keeps `label = negative` — the label is
forced to neutral only when the category was not already negative. -/
theorem c1_amended (fc : TimelineSeg) (hcat : fc.category = "negative")
    (hdef : (deferral_keywords.any fun k => containsSub (lowerStr fc.text) k) = true) :
    (fallbackJudgment fc).call_outcome = "pending"
    ∧ (fallbackJudgment fc).label = "negative"
    ∧ (fallbackJudgment fc).source = "fallback" := by
  have hl0 : normalize_sentiment_category (some "negative") = "negative" := by decide
  unfold fallbackJudgment
  rw [hcat, hdef, hl0]
  simp

/-- Witness for the amended C1 at the concrete scenario segment. -/
theorem c1_amended_witness :
    (fallbackJudgment ⟨10, 12, "Customer", "negative", some "Distress",
        "can you call me back later"⟩).call_outcome = "pending"
    ∧ (fallbackJudgment ⟨10, 12, "Customer", "negative", some "Distress",
        "can you call me back later"⟩).label = "negative"
    ∧ (fallbackJudgment ⟨10, 12, "Customer", "negative", some "Distress",
        "can you call me back later"⟩).source = "fallback" :=
  c1_amended _ (by decide) (by decide)

/-! ## Claim C2: missing or invalid `overall_emotion` in a parsed reply -/

/-- A reply that parsed to a non-empty object with no `overall_emotion`. -/
def c2Parsed : ParsedResponse :=
  { overall_emotion := none, call_outcome := some "success", confidence := none,
    reasoning := none, has_other_keys := false }

/-- A minimal results list giving a non-empty timeline for the C2 run. -/
def c2Result : FileResult :=
  { filename := "f"
    prosody := [{ time_start := some 1, time_end := some 2, text := some "ok",
                  transcript_text := none, speaker := some "Customer",
                  primary_category := some "positive",
                  top_emotions := [{ name := "Joy", score := 3/5, percentage := 60,
                                     category := "positive" }],
                  source := "prosody", transcript_index := none }]
    burst := []
    metadata := { category_counts := none, retell_transcript_available := none,
                  retell_transcript_segments := none, speaker := none } }

/-- Counterexample to C2: a parsed reply with a MISSING `overall_emotion` is
not treated as a failure of the primary path — the judgment comes from the
model path (source "openai") with the label normalized to "neutral". -/
theorem c2_counterexample :
    determine_overall_call_emotion [c2Result] (some c2Parsed)
      = some { label := "neutral", call_outcome := "success", confidence := 3/4,
               reasoning := "", source := "openai" }
    ∧ (determine_overall_call_emotion [c2Result] (some c2Parsed)).map Judgment.source
        ≠ some "fallback" := by
  decide

/-- The C2 hypothesis: the parsed reply's `overall_emotion` is missing or
not one of the three sentiment words (after strip and lower). -/
def invalidOverallEmotion (o : Option String) : Prop :=
  match o with
  | none => True
  | some s =>
    lowerStr (pyStrip s) ≠ "positive" ∧ lowerStr (pyStrip s) ≠ "neutral"
      ∧ lowerStr (pyStrip s) ≠ "negative"

theorem normalize_invalid {o : Option String} (h : invalidOverallEmotion o) :
    normalize_sentiment_category o = "neutral" := by
  cases o with
  | none => rfl
  | some s =>
    obtain ⟨h1, h2, h3⟩ := h
    show (if s = "" then DEFAULT_EMOTION_CATEGORY
          else
            if lowerStr (pyStrip s) = "positive" ∨ lowerStr (pyStrip s) = "neutral"
                ∨ lowerStr (pyStrip s) = "negative" then
              lowerStr (pyStrip s)
            else DEFAULT_EMOTION_CATEGORY) = "neutral"
    by_cases hs : s = ""
    · rw [if_pos hs]
      rfl
    · rw [if_neg hs, if_neg (by tauto)]
      rfl

/-- C2 as amended: whenever the reply parses to a non-empty (truthy) object,
the model path always produces the judgment — a missing or invalid
`overall_emotion` is normalized to "neutral" rather than failing the primary
path — so the judgment's source is "openai", never "fallback"; the fallback
is reached only when no object parses at all or the object is empty. -/
theorem c2_amended (p : ParsedResponse) (htruthy : p.truthy = true)
    (hinvalid : invalidOverallEmotion p.overall_emotion) :
    (modelPathJudgment (some p)).map Judgment.source = some "openai"
    ∧ (modelPathJudgment (some p)).map Judgment.label = some "neutral" := by
  have hn := normalize_invalid hinvalid
  show (modelJudgmentOf p).map Judgment.source = some "openai"
    ∧ (modelJudgmentOf p).map Judgment.label = some "neutral"
  unfold modelJudgmentOf
  rw [htruthy, if_pos rfl, if_pos (Or.inr (Or.inl hn))]
  exact ⟨rfl, by simp [hn]⟩

/-- Witness for the amended C2 at the concrete parsed reply `c2Parsed`. -/
theorem c2_amended_witness :
    (modelPathJudgment (some c2Parsed)).map Judgment.source = some "openai"
    ∧ (modelPathJudgment (some c2Parsed)).map Judgment.label = some "neutral" :=
  c2_amended c2Parsed (by decide) trivial

/-! ## Claim C10: transcript extraction
(`extract_retell_transcript_segments`) -/

/-- One word-level timestamp entry of a transcript utterance. -/
structure WordTiming where
  start : Option ℚ
  stop : Option ℚ
deriving DecidableEq

/-- One raw `transcript_object` entry of the Retell call payload. -/
structure RetellUtterance where
  speaker : Option String
  role : Option String
  start : Option ℚ
  stop : Option ℚ
  words : List WordTiming
  content : Option String
  text : Option String
  confidence : Option ℚ
deriving DecidableEq

/-- One cleaned transcript segment: normalized speaker, numeric times,
text defaulted to the empty string. -/
structure CleanedSeg where
  speaker : String
  start : ℚ
  stop : ℚ
  text : String
  confidence : Option ℚ
deriving DecidableEq

/-- Speaker normalization of lines 566-572: user/customer become "Customer",
agent/assistant become "Agent", any other role is title-cased. -/
def normalizeSpeaker (sp : String) : String :=
  if lowerStr sp = "user" ∨ lowerStr sp = "customer" then "Customer"
  else if lowerStr sp = "agent" ∨ lowerStr sp = "assistant" then "Agent"
  else pyTitle sp

/-- Time resolution of lines 574-585: use `start`/`end` directly; when either
is missing and word-level timestamps exist, take the first word's start and
the last word's end (overwriting both); fail when either remains missing. -/
def resolvedTimes (e : RetellUtterance) : Option (ℚ × ℚ) :=
  match
    (if (e.start.isNone || e.stop.isNone) && !e.words.isEmpty then
       ((match e.words.head? with | some w => w.start | none => none),
        (match e.words.getLast? with | some w => w.stop | none => none))
     else (e.start, e.stop)) with
  | (some a, some b) => some (a, b)
  | _ => none

/-- The per-entry body of `extract_retell_transcript_segments` (lines
558-598): an entry with a falsy speaker-or-role, or with unresolvable times,
is silently dropped. -/
def cleanEntry (e : RetellUtterance) : Option CleanedSeg :=
  match pyOr e.speaker e.role with
  | none => none
  | some sp =>
    match resolvedTimes e with
    | none => none
    | some (a, b) =>
      some { speaker := normalizeSpeaker sp
             start := a
             stop := b
             text := (pyOr e.content e.text).getD ""
             confidence := e.confidence }

/-- Embedding of `extract_retell_transcript_segments` (lines 551-600); a
payload whose `transcript_object` is not a list yields no segments. -/
def extract_retell_transcript_segments : Option (List RetellUtterance) → List CleanedSeg
  | none => []
  | some l => l.filterMap cleanEntry

/-- C10: every segment returned by transcript extraction comes from cleaning
one input entry, and cleaning realises the exact speaker mapping: with `sp`
the entry's speaker-or-role, a lower-cased "user"/"customer" yields speaker
"Customer", a lower-cased "agent"/"assistant" yields "Agent", and any other
role is title-cased; numeric start and end hold by construction; an entry
whose speaker and role are both falsy, or whose times cannot be resolved
directly or from its word-level timestamps, is silently omitted. -/
theorem c10_transcript_normalization :
    (∀ (t : Option (List RetellUtterance)) (s : CleanedSeg),
        s ∈ extract_retell_transcript_segments t →
        ∃ e ∈ t.getD [], cleanEntry e = some s)
    ∧ (∀ (e : RetellUtterance) (sp : String) (s : CleanedSeg),
        pyOr e.speaker e.role = some sp → cleanEntry e = some s →
        ((lowerStr sp = "user" ∨ lowerStr sp = "customer") → s.speaker = "Customer")
        ∧ ((lowerStr sp = "agent" ∨ lowerStr sp = "assistant") → s.speaker = "Agent")
        ∧ (¬ (lowerStr sp = "user" ∨ lowerStr sp = "customer") →
           ¬ (lowerStr sp = "agent" ∨ lowerStr sp = "assistant") →
           s.speaker = pyTitle sp))
    ∧ (∀ e : RetellUtterance, pyOr e.speaker e.role = none → cleanEntry e = none)
    ∧ (∀ e : RetellUtterance, resolvedTimes e = none → cleanEntry e = none) := by
  refine ⟨fun t s hs => ?_, fun e sp s hsp hce => ?_, fun e h => ?_, fun e h => ?_⟩
  · cases t with
    | none => exact absurd hs (by simp [extract_retell_transcript_segments])
    | some l =>
      obtain ⟨e, he, hce⟩ := List.mem_filterMap.mp hs
      exact ⟨e, he, hce⟩
  · unfold cleanEntry at hce
    split at hce
    next hsp0 => exact absurd (hsp0.symm.trans hsp) (by simp)
    next sp0 hsp0 =>
      obtain rfl : sp0 = sp := Option.some.inj ((hsp0.symm.trans hsp))
      split at hce
      next => exact absurd hce (by simp)
      next a b hrt =>
        simp only [Option.some.injEq] at hce
        subst hce
        refine ⟨fun h1 => ?_, fun h2 => ?_, fun h1 h2 => ?_⟩
        · show normalizeSpeaker sp0 = "Customer"
          unfold normalizeSpeaker
          rw [if_pos h1]
        · show normalizeSpeaker sp0 = "Agent"
          have h1 : ¬ (lowerStr sp0 = "user" ∨ lowerStr sp0 = "customer") := by
            rcases h2 with h2 | h2 <;> rw [h2] <;> decide
          unfold normalizeSpeaker
          rw [if_neg h1, if_pos h2]
        · show normalizeSpeaker sp0 = pyTitle sp0
          unfold normalizeSpeaker
          rw [if_neg h1, if_neg h2]
  · unfold cleanEntry
    rw [h]
  · unfold cleanEntry
    cases hsp : pyOr e.speaker e.role with
    | none => rfl
    | some sp => rw [h]

/-- A customer-role entry (lower-case "user") for the C10 witness. -/
def c10Entry : RetellUtterance :=
  { speaker := some "user", role := none, start := some 1, stop := some 2,
    words := [], content := some "hi", text := none, confidence := none }

/-- The cleaned segment extracted from `c10Entry`. -/
def c10SegOut : CleanedSeg :=
  { speaker := "Customer", start := 1, stop := 2, text := "hi", confidence := none }

/-- An agent-role entry in upper case, exercising case-insensitivity. -/
def c10AgentEntry : RetellUtterance :=
  { speaker := none, role := some "ASSISTANT", start := some 1, stop := some 2,
    words := [], content := none, text := some "ok", confidence := none }

/-- The cleaned segment extracted from `c10AgentEntry`. -/
def c10AgentOut : CleanedSeg :=
  { speaker := "Agent", start := 1, stop := 2, text := "ok", confidence := none }

/-- An entry with an unrecognised role, resolving its times from word-level
timestamps. -/
def c10OtherEntry : RetellUtterance :=
  { speaker := some "bot operator", role := none, start := none, stop := none,
    words := [{ start := some 3, stop := some 4 }, { start := some 5, stop := some 6 }],
    content := none, text := none, confidence := some (9/10) }

/-- The cleaned segment extracted from `c10OtherEntry`. -/
def c10OtherOut : CleanedSeg :=
  { speaker := "Bot Operator", start := 3, stop := 6, text := "", confidence := some (9/10) }

/-- An entry with neither speaker nor role. -/
def c10BadSpeaker : RetellUtterance :=
  { speaker := none, role := none, start := some 1, stop := some 2,
    words := [], content := none, text := none, confidence := none }

/-- An entry whose times cannot be resolved (no start, no end, no words). -/
def c10BadTimes : RetellUtterance :=
  { speaker := some "agent", role := none, start := none, stop := none,
    words := [], content := some "hi", text := none, confidence := none }

/-- Witness for C10 at concrete entries, exercising all three speaker-mapping
branches and both omission conditions. -/
theorem c10_transcript_normalization_witness :
    (∃ e ∈ [c10Entry], cleanEntry e = some c10SegOut)
    ∧ c10SegOut.speaker = "Customer"
    ∧ c10AgentOut.speaker = "Agent"
    ∧ c10OtherOut.speaker = pyTitle "bot operator"
    ∧ cleanEntry c10BadSpeaker = none
    ∧ cleanEntry c10BadTimes = none :=
  ⟨c10_transcript_normalization.1 (some [c10Entry]) c10SegOut (by decide),
   (c10_transcript_normalization.2.1 c10Entry "user" c10SegOut
       (by decide) (by decide)).1 (by decide),
   (c10_transcript_normalization.2.1 c10AgentEntry "ASSISTANT" c10AgentOut
       (by decide) (by decide)).2.1 (by decide),
   (c10_transcript_normalization.2.1 c10OtherEntry "bot operator" c10OtherOut
       (by decide) (by decide)).2.2 (by decide) (by decide),
   c10_transcript_normalization.2.2.1 c10BadSpeaker (by decide),
   c10_transcript_normalization.2.2.2 c10BadTimes (by decide)⟩
